import Mathlib

set_option linter.unusedVariables false

/-!
Shallow embedding of `e2e-tests/utility/generate-expected-outputs.py` from
score-spec/score-compose: a utility script that runs the `score-compose`
CLI on a fixed list of argument strings, captures each invocation's
combined stdout+stderr, and appends it to a per-invocation fixture file
under a `temp` workspace directory.

Modelling conventions:
- Python strings are `String` (for file names) or `List Char` (for file
  contents and process output, where character-level reasoning is needed).
- The external tool is a black box: it is modelled by a parameter
  `toolChunks : String → List (List Char)` giving, for an invocation, the
  successive non-EOF values returned by `process.stdout.readline()` (each
  normally a line ending in a newline character, the last possibly not),
  and `toolRc : String → Int` giving the process exit code. The combined
  output of the process is the concatenation `(toolChunks a).flatten`.
- The filesystem is a state `FS`: whether the `temp` directory exists,
  plus an association list from file path to file content, holding the
  files under `temp`.
- An unhandled Python exception that terminates the computation is
  modelled by `Option`: `none` means the step (and hence the run) died
  with an uncaught exception.
-/

namespace ScoreCompose

/-- Source line `sc_exec = "score-compose"`: the fixed executable name. -/
def sc_exec : String := "score-compose"

/-- Source lines 14–33, `arglist`: the fixed, ordered invocation list. -/
def arglist : List String :=
  ["--help",
   "completion",
   "completion bash",
   "completion bash --help",
   "completion fish",
   "completion fish --help",
   "completion powershell",
   "completion powershell --help",
   "completion zsh",
   "completion zsh --help",
   "run",
   "run --help",
   "unknown",
   "--version",
   "run -f example-score.yaml",
   "run -f example-score.yaml --build test",
   "run -f example-score.yaml --overrides overrides.yaml",
   "run --verbose"]

/-- Source line `dir = "temp"`: the workspace directory name. -/
def dir : String := "temp"

/-- The filesystem state the script manipulates: whether the workspace
directory `temp` exists, and the files under it (path, content). -/
structure FS where
  tempExists : Bool
  files : List (String × List Char)

/-- Association-list lookup of a file's content by its path. -/
def lookupFile : List (String × List Char) → String → Option (List Char)
  | [], _ => none
  | (q, d) :: rest, p => if q = p then some d else lookupFile rest p

/-- Append `c` to the file at path `p`, creating it if absent: the effect
of `open(path, "a"); file.write(c)` on the modelled file map. -/
def appendFile : List (String × List Char) → String → List Char → List (String × List Char)
  | [], p, c => [(p, c)]
  | (q, d) :: rest, p, c =>
      if q = p then (q, d ++ c) :: rest else (q, d) :: appendFile rest p c

/-- Source lines 37–41: `shutil.rmtree(dir)` followed by
`isExist = os.path.exists(dir); if not isExist: os.makedirs(dir)`.
`shutil.rmtree` raises `FileNotFoundError` when the directory is absent
(modelled by `none`); when it exists, the tree is removed, the existence
check is then false, and `os.makedirs` recreates an empty directory. -/
def reset_workspace (fs : FS) : Option FS :=
  if fs.tempExists then some ⟨true, []⟩ else none

/-- The fixture file path used by `write_file`, source line 70:
the f-string `"{dir}/{name}-output.txt"` built from the raw invocation. -/
def filePath (name : String) : String :=
  dir ++ "/" ++ name ++ "-output.txt"

/-- Source lines 69–72, `write_file(name, content)`: opens
`{dir}/{name}-output.txt` in append mode and writes `content`. `open`
raises `FileNotFoundError` (modelled by `none`) when the workspace
directory does not exist. (The source says `file.close` without calling
it; CPython still flushes and closes the handle when the local is
garbage-collected at function exit, so the write is effective.) -/
def write_file (fs : FS) (name : String) (content : List Char) : Option FS :=
  if fs.tempExists then some ⟨true, appendFile fs.files (filePath name) content⟩
  else none

/-- Source lines 51–60, the read loop of `run_sc_cmd`: successive
`readline` results are accumulated into `output_cmd`, which starts as
`None`; an empty read is skipped (`if output:`), a non-empty read is
concatenated onto the accumulator (or becomes it when it is still
`None`). The loop ends when `readline` returns an empty string and
`process.poll()` is no longer `None`; `chunks` is the list of reads made
before that terminating condition. -/
def accumOutput : List (List Char) → Option (List Char) → Option (List Char)
  | [], acc => acc
  | l :: ls, acc =>
      if l = [] then accumOutput ls acc
      else
        match acc with
        | some s => accumOutput ls (some (s ++ l))
        | none => accumOutput ls (some l)

/-- Source lines 44–66, `run_sc_cmd(arguments)`, on the path where the
process starts and the read loop finishes without an exception: the
accumulated output then has `rc = process.poll()` bound (and never used),
and `output_cmd = output_cmd[:-1]` strips the final character. When the
process produced no output at all, `output_cmd` is still `None` and
`None[:-1]` raises an uncaught `TypeError` — line 65 sits outside the
`try` block — terminating the run (modelled by `none`). -/
def run_sc_cmd (chunks : List (List Char)) (rc : Int) : Option (List Char) :=
  match accumOutput chunks none with
  | none => none
  | some s => some s.dropLast

/-- Source line 62: the first `print` of the bare `except` block, the
f-string `"The command >>{sc_exec} {arguments}<< failed"`. -/
def diagnostic (arguments : String) : String :=
  "The command >>" ++ sc_exec ++ " " ++ arguments ++ "<< failed"

/-- Source lines 44–66, `run_sc_cmd(arguments)`, on the path where
`subprocess.Popen` itself raises (executable not found, malformed
command line): the local `process` is never bound, the bare `except`
prints the diagnostic naming the invocation (first component), and then
line 63 evaluates `process.stdout.readline()` on the unbound local,
raising a `NameError` that propagates out of the function and terminates
the whole run (second component `none`). -/
def run_sc_cmd_startup_failure (arguments : String) : List String × Option (List Char) :=
  ([diagnostic arguments], none)

/-- Source lines 44–66, `run_sc_cmd(arguments)`, on the path where an
exception interrupts the read loop after the reads in `chunksRead` were
made (here `process` is bound, so the `except` block completes): the
handler prints the diagnostic and one further raw `readline`, then falls
through to `rc = process.poll()` and `output_cmd = output_cmd[:-1]`,
exactly the tail of the normal path, so the function returns the partial
accumulator minus its final character — or dies with the same `TypeError`
when nothing was accumulated yet. -/
def run_sc_cmd_interrupted (arguments : String) (chunksRead : List (List Char))
    (rc : Int) : List String × Option (List Char) :=
  ([diagnostic arguments],
   match accumOutput chunksRead none with
   | none => none
   | some s => some s.dropLast)

/-- Source lines 75–77, the driver loop
`for arg in arglist: output = run_sc_cmd(arg); write_file(arg, output)`,
over a given suffix of the invocation list. A `none` from either step is
an uncaught exception that terminates the run. -/
def driverLoop (toolChunks : String → List (List Char)) (toolRc : String → Int) :
    List String → FS → Option FS
  | [], fs => some fs
  | a :: rest, fs =>
      match run_sc_cmd (toolChunks a) (toolRc a) with
      | none => none
      | some out =>
          match write_file fs a out with
          | none => none
          | some fs2 => driverLoop toolChunks toolRc rest fs2

/-- The whole script: workspace reset (lines 37–41), then the driver
loop over `arglist` (lines 75–77). -/
def fullRun (toolChunks : String → List (List Char)) (toolRc : String → Int)
    (fs : FS) : Option FS :=
  match reset_workspace fs with
  | none => none
  | some fs0 => driverLoop toolChunks toolRc arglist fs0

/-! Helper lemmas about the embedded operations. -/

theorem accumOutput_some (ls : List (List Char)) (s : List Char) :
    accumOutput ls (some s) = some (s ++ ls.flatten) := by
  induction ls generalizing s with
  | nil => simp [accumOutput]
  | cons l ls ih =>
    by_cases hl : l = []
    · subst hl; simp [accumOutput, ih]
    · simp [accumOutput, hl, ih, List.append_assoc]

theorem accumOutput_none_eq (ls : List (List Char)) :
    accumOutput ls none = if ls.flatten = [] then none else some ls.flatten := by
  induction ls with
  | nil => simp [accumOutput]
  | cons l ls ih =>
    by_cases hl : l = []
    · subst hl; simpa [accumOutput] using ih
    · simp [accumOutput, hl, accumOutput_some, List.append_eq_nil]

theorem run_sc_cmd_eq_of_ne_nil (chunks : List (List Char)) (rc : Int)
    (h : chunks.flatten ≠ []) :
    run_sc_cmd chunks rc = some chunks.flatten.dropLast := by
  simp [run_sc_cmd, accumOutput_none_eq, h]

theorem run_sc_cmd_eq_none_of_nil (chunks : List (List Char)) (rc : Int)
    (h : chunks.flatten = []) :
    run_sc_cmd chunks rc = none := by
  simp [run_sc_cmd, accumOutput_none_eq, h]

theorem lookupFile_appendFile_self (L : List (String × List Char)) (p : String)
    (c : List Char) :
    lookupFile (appendFile L p c) p = some ((lookupFile L p).getD [] ++ c) := by
  induction L with
  | nil => simp [lookupFile, appendFile]
  | cons e rest ih =>
    obtain ⟨q, d⟩ := e
    by_cases hq : q = p
    · subst hq; simp [lookupFile, appendFile]
    · simp [lookupFile, appendFile, hq, ih]

theorem lookupFile_appendFile_ne (L : List (String × List Char)) (p q : String)
    (c : List Char) (hq : q ≠ p) :
    lookupFile (appendFile L p c) q = lookupFile L q := by
  have hq2 : ¬p = q := fun h => hq h.symm
  induction L with
  | nil => simp [lookupFile, appendFile, hq2]
  | cons e rest ih =>
    obtain ⟨r, d⟩ := e
    by_cases hr : r = p
    · subst hr; simp [lookupFile, appendFile, hq2]
    · by_cases hrq : r = q
      · subst hrq; simp [lookupFile, appendFile, hr]
      · simp [lookupFile, appendFile, hr, hrq, ih]

theorem filePath_data (a : String) :
    (filePath a).data = "temp/".data ++ a.data ++ "-output.txt".data := by
  have h : "temp/".data = "temp".data ++ "/".data := by decide
  simp [filePath, dir, String.data_append, h, List.append_assoc]

theorem filePath_injective (a b : String) (h : filePath a = filePath b) : a = b := by
  apply String.ext
  have hd := congrArg String.data h
  rw [filePath_data, filePath_data] at hd
  exact List.append_cancel_left (List.append_cancel_right hd)

theorem driverLoop_spec (tc : String → List (List Char)) (trc : String → Int) :
    ∀ (l : List String) (fs : FS), l.Nodup →
    (∀ a ∈ l, (tc a).flatten ≠ []) →
    fs.tempExists = true →
    (∀ a ∈ l, lookupFile fs.files (filePath a) = none) →
    ∃ fs1, driverLoop tc trc l fs = some fs1 ∧ fs1.tempExists = true ∧
      (∀ a ∈ l, lookupFile fs1.files (filePath a) = some (tc a).flatten.dropLast) ∧
      (∀ p, (∀ a ∈ l, p ≠ filePath a) → lookupFile fs1.files p = lookupFile fs.files p) := by
  intro l
  induction l with
  | nil =>
    intro fs _ _ hex _
    exact ⟨fs, rfl, hex, by simp, fun p _ => rfl⟩
  | cons a rest ih =>
    intro fs hnd ho hex habs
    have hmem : a ∈ a :: rest := List.mem_cons_self a rest
    have hflat : (tc a).flatten ≠ [] := ho a hmem
    have hnotin : a ∉ rest := (List.nodup_cons.mp hnd).1
    have hndr : rest.Nodup := (List.nodup_cons.mp hnd).2
    set out := (tc a).flatten.dropLast with hout
    have hwf : write_file fs a out = some ⟨true, appendFile fs.files (filePath a) out⟩ := by
      simp [write_file, hex]
    set fs2 : FS := ⟨true, appendFile fs.files (filePath a) out⟩ with hfs2
    have habs2 : ∀ b ∈ rest, lookupFile fs2.files (filePath b) = none := by
      intro b hb
      have hne : filePath b ≠ filePath a := by
        intro h
        exact hnotin (filePath_injective b a h ▸ hb)
      rw [hfs2]
      rw [lookupFile_appendFile_ne _ _ _ _ hne]
      exact habs b (List.mem_cons_of_mem a hb)
    obtain ⟨fs1, hrun, hex1, hlook, hpres⟩ :=
      ih fs2 hndr (fun b hb => ho b (List.mem_cons_of_mem a hb)) rfl habs2
    refine ⟨fs1, ?_, hex1, ?_, ?_⟩
    · simp only [driverLoop, run_sc_cmd_eq_of_ne_nil (tc a) (trc a) hflat, hwf]
      exact hrun
    · intro b hb
      rcases List.mem_cons.mp hb with hba | hbr
      · subst hba
        have hself : lookupFile fs2.files (filePath b) = some out := by
          rw [hfs2, lookupFile_appendFile_self, habs b hmem]
          simp
        have hpr : lookupFile fs1.files (filePath b) = lookupFile fs2.files (filePath b) := by
          apply hpres
          intro c hc hcontra
          exact hnotin (filePath_injective b c hcontra ▸ hc)
        rw [hpr, hself, hout]
      · exact hlook b hbr
    · intro p hp
      have h1 : lookupFile fs1.files p = lookupFile fs2.files p :=
        hpres p (fun b hb => hp b (List.mem_cons_of_mem a hb))
      rw [h1, hfs2, lookupFile_appendFile_ne _ _ _ _ (hp a hmem)]

/-! Claim theorems. -/

/-- C1: for every invocation in the fixed `arglist`, after a full run the
fixture file at the path derived from the invocation exists in the
workspace and its content equals the tool's combined stdout+stderr output
for that invocation with exactly one trailing newline character removed
(hypotheses: the workspace directory pre-exists so the reset succeeds, and
every invocation's combined output ends with a newline — which also makes
it non-empty, so no capture crashes). -/
theorem full_run_writes_each_capture
    (tc : String → List (List Char)) (trc : String → Int) (fs : FS)
    (hex : fs.tempExists = true)
    (hnl : ∀ a ∈ arglist, ∃ t, (tc a).flatten = t ++ ['\n']) :
    ∃ fs1, fullRun tc trc fs = some fs1 ∧
      ∀ a ∈ arglist, ∃ c, lookupFile fs1.files (filePath a) = some c ∧
        c ++ ['\n'] = (tc a).flatten := by
  have hnd : arglist.Nodup := by decide
  have ho : ∀ a ∈ arglist, (tc a).flatten ≠ [] := by
    intro a ha
    obtain ⟨t, ht⟩ := hnl a ha
    simp [ht]
  have hreset : reset_workspace fs = some ⟨true, []⟩ := by
    simp [reset_workspace, hex]
  obtain ⟨fs1, hrun, _, hlook, _⟩ :=
    driverLoop_spec tc trc arglist ⟨true, []⟩ hnd ho rfl (fun a _ => rfl)
  refine ⟨fs1, ?_, ?_⟩
  · simp [fullRun, hreset, hrun]
  · intro a ha
    obtain ⟨t, ht⟩ := hnl a ha
    refine ⟨(tc a).flatten.dropLast, hlook a ha, ?_⟩
    rw [ht, List.dropLast_concat]

/-- Witness for C1: a concrete tool answering `ok` plus newline on every
invocation, run from a state where the workspace directory exists. -/
theorem full_run_writes_each_capture_witness :
    (FS.tempExists ⟨true, []⟩ = true) ∧
    (∀ a ∈ arglist, ∃ t,
      ((fun _ : String => [['o', 'k', '\n']]) a).flatten = t ++ ['\n']) ∧
    (∃ fs1, fullRun (fun _ : String => [['o', 'k', '\n']])
        (fun _ : String => 0) ⟨true, []⟩ = some fs1 ∧
      ∀ a ∈ arglist, ∃ c, lookupFile fs1.files (filePath a) = some c ∧
        c ++ ['\n'] = ((fun _ : String => [['o', 'k', '\n']]) a).flatten) :=
  ⟨rfl, fun _ _ => ⟨['o', 'k'], rfl⟩,
   full_run_writes_each_capture _ _ _ rfl (fun _ _ => ⟨['o', 'k'], rfl⟩)⟩

/-- C2 counterexample: an invocation whose process produces no output at
all does crash the run — `output_cmd` stays `None` and line 65 evaluates
`None[:-1]`, an uncaught `TypeError` (modelled by `none`): the capture
step yields no value, and a full run over `arglist` against a tool that
prints nothing dies on the very first invocation, producing no file. -/
theorem empty_output_crashes_run :
    run_sc_cmd [] 0 = none ∧
    fullRun (fun _ : String => []) (fun _ : String => 0) ⟨true, []⟩ = none :=
  ⟨rfl, rfl⟩

/-- C2 amended: for every invocation whose external process terminates
having produced no output at all, the capture step raises an unhandled
TypeError (the trailing-character strip is applied to the still-`None`
accumulator, outside the `try` block), so it yields no value and the run
terminates at that invocation instead of producing an empty file or a
logged failure. -/
theorem run_sc_cmd_none_on_empty_output (chunks : List (List Char)) (rc : Int)
    (h : chunks.flatten = []) :
    run_sc_cmd chunks rc = none ∧
    ∀ (tc : String → List (List Char)) (trc : String → Int) (fs : FS)
      (a : String) (rest : List String),
      tc a = chunks → driverLoop tc trc (a :: rest) fs = none := by
  refine ⟨run_sc_cmd_eq_none_of_nil chunks rc h, ?_⟩
  intro tc trc fs a rest hta
  have hz : run_sc_cmd (tc a) (trc a) = none :=
    run_sc_cmd_eq_none_of_nil (tc a) (trc a) (by rw [hta]; exact h)
  simp [driverLoop, hz]

/-- Witness for the amended C2: a process whose only read is the empty
string accumulates nothing; the capture dies and so does the driver. -/
theorem run_sc_cmd_none_on_empty_output_witness :
    run_sc_cmd [[]] 7 = none ∧
    driverLoop (fun _ : String => [[]]) (fun _ : String => 0)
      ["run"] ⟨true, []⟩ = none :=
  ⟨(run_sc_cmd_none_on_empty_output [[]] 7 rfl).1,
   (run_sc_cmd_none_on_empty_output [[]] 7 rfl).2
     (fun _ : String => [[]]) (fun _ : String => 0) ⟨true, []⟩ "run" [] rfl⟩

/-- C3 (code bug): when process startup fails, the bare `except` block
does print a diagnostic that includes the invocation string, but then
line 63 evaluates `process.stdout.readline()` with the local `process`
never bound (`Popen` raised before the assignment completed), raising a
`NameError` that propagates and terminates the whole run — the run does
not continue to the next invocation. Evaluated here at the failing
invocation `"--help"`. -/
theorem startup_failure_diagnostic_then_abort :
    run_sc_cmd_startup_failure "--help" =
      (["The command >>score-compose --help<< failed"], none) := rfl

/-- C4 counterexample: the fixture file name for the invocation
`"run --help"` is `"temp/run --help-output.txt"`, which still contains a
space — no character is substituted by a separator before the
`-output.txt` suffix is appended. -/
theorem space_in_fixture_file_name :
    filePath "run --help" = "temp/run --help-output.txt" ∧
    ' ' ∈ ("temp/run --help-output.txt").data := by
  exact ⟨by decide, by decide⟩

/-- C4 amended: the fixture file name is built from the raw invocation
string with no substitution at all — the derived path is exactly the
workspace prefix `temp/`, then the invocation's characters unchanged and
contiguous, then the `-output.txt` suffix; in particular every character
of the invocation, spaces included, still appears in the path. -/
theorem fixture_name_no_substitution (name : String) (c : Char)
    (hc : c ∈ name.data) :
    (filePath name).data = "temp/".data ++ name.data ++ "-output.txt".data ∧
    c ∈ (filePath name).data := by
  refine ⟨filePath_data name, ?_⟩
  rw [filePath_data]
  simp [hc]

/-- Witness for the amended C4: the fixture path of `"run --help"` is the
prefix, the raw invocation (space included), and the suffix, and the
space survives in it. -/
theorem fixture_name_no_substitution_witness :
    ' ' ∈ ("run --help").data ∧
    ((filePath "run --help").data =
      "temp/".data ++ ("run --help").data ++ "-output.txt".data ∧
     ' ' ∈ (filePath "run --help").data) :=
  ⟨by decide, fixture_name_no_substitution "run --help" ' ' (by decide)⟩

/-- C5: the fixture file name uses the raw invocation string as-is
(its characters, spaces included, sit literally between the `temp/`
prefix and the `-output.txt` suffix), and the name is a deterministic,
injective function of the invocation, so re-running with the same
invocation list targets exactly the same files. -/
theorem fixture_name_raw_and_deterministic :
    (∀ a : String,
      (filePath a).data = "temp/".data ++ a.data ++ "-output.txt".data) ∧
    (∀ a b : String, filePath a = filePath b → a = b) :=
  ⟨filePath_data, filePath_injective⟩

/-- Witness for C5 at concrete invocations. -/
theorem fixture_name_raw_and_deterministic_witness :
    ((filePath "run --help").data =
      "temp/".data ++ ("run --help").data ++ "-output.txt".data) ∧
    ("run" : String) = "run" :=
  ⟨fixture_name_raw_and_deterministic.1 "run --help",
   fixture_name_raw_and_deterministic.2 "run" "run" rfl⟩

/-- C6: the workspace reset raises an error if and only if the directory
does not exist at the time of removal (`shutil.rmtree` on a missing path
raises `FileNotFoundError`, modelled by `none`); when the directory
previously existed, no exception is raised and afterwards the directory
exists and is empty. -/
theorem reset_workspace_spec (fs : FS) :
    (reset_workspace fs = none ↔ fs.tempExists = false) ∧
    (∀ fs0, reset_workspace fs = some fs0 →
      fs0.tempExists = true ∧ fs0.files = []) := by
  obtain ⟨te, fl⟩ := fs
  cases te
  · refine ⟨by simp [reset_workspace], ?_⟩
    intro fs0 h0
    simp [reset_workspace] at h0
  · refine ⟨by simp [reset_workspace], ?_⟩
    intro fs0 h0
    simp only [reset_workspace, if_true] at h0
    rw [Option.some_inj] at h0
    subst h0
    exact ⟨rfl, rfl⟩

/-- Witness for C6: resetting an existing, non-empty workspace succeeds
and leaves an existing, empty one. -/
theorem reset_workspace_spec_witness :
    reset_workspace ⟨true, [(filePath "run", ['x'])]⟩ = some ⟨true, []⟩ ∧
    FS.tempExists ⟨true, ([] : List (String × List Char))⟩ = true ∧
    FS.files (⟨true, []⟩ : FS) = [] :=
  ⟨rfl, (reset_workspace_spec ⟨true, [(filePath "run", ['x'])]⟩).2 ⟨true, []⟩ rfl⟩

/-- C7: writing the same fixture file twice in succession without a
workspace reset in between (the file being absent beforehand) yields a
file whose content is the first capture's text immediately followed by
the second capture's text — each being what `run_sc_cmd` returned, i.e.
trailing-character-stripped output — concatenated in that order with no
separator inserted, because `write_file` opens in append mode. -/
theorem write_twice_appends (fs : FS) (a : String) (l1 l2 : List (List Char))
    (rc1 rc2 : Int) (c1 c2 : List Char)
    (hex : fs.tempExists = true)
    (habs : lookupFile fs.files (filePath a) = none)
    (h1 : run_sc_cmd l1 rc1 = some c1)
    (h2 : run_sc_cmd l2 rc2 = some c2) :
    ∃ fs1 fs2, write_file fs a c1 = some fs1 ∧ write_file fs1 a c2 = some fs2 ∧
      lookupFile fs2.files (filePath a) = some (c1 ++ c2) := by
  refine ⟨⟨true, appendFile fs.files (filePath a) c1⟩,
          ⟨true, appendFile (appendFile fs.files (filePath a) c1) (filePath a) c2⟩,
          by simp [write_file, hex], by simp [write_file], ?_⟩
  rw [lookupFile_appendFile_self, lookupFile_appendFile_self, habs]
  simp

/-- Witness for C7: two concrete captures of the `"run --help"` fixture
appended into one file. -/
theorem write_twice_appends_witness :
    ∃ fs1 fs2, write_file ⟨true, []⟩ "run --help" ['a'] = some fs1 ∧
      write_file fs1 "run --help" ['b'] = some fs2 ∧
      lookupFile fs2.files (filePath "run --help") = some (['a'] ++ ['b']) :=
  write_twice_appends ⟨true, []⟩ "run --help" [['a', '\n']] [['b', '\n']]
    0 0 ['a'] ['b'] rfl rfl rfl rfl

/-- C8: the capture result does not depend on the process exit code —
`rc = process.poll()` is bound and never used — so two runs with the same
combined output but different exit codes (one zero, one non-zero)
produce the identical captured string as long as output was produced. -/
theorem capture_ignores_exit_code (chunks : List (List Char)) (rc1 rc2 : Int)
    (hz : rc1 = 0) (hnz : rc2 ≠ 0)
    (hprod : accumOutput chunks none ≠ none) :
    run_sc_cmd chunks rc1 = run_sc_cmd chunks rc2 := rfl

/-- Witness for C8: exit codes 0 and 1 on the same one-line output. -/
theorem capture_ignores_exit_code_witness :
    run_sc_cmd [['x', '\n']] 0 = run_sc_cmd [['x', '\n']] 1 :=
  capture_ignores_exit_code [['x', '\n']] 0 1 rfl (by decide) (by decide)

/-- C9: in every run that reaches the capture phase (the reset returned
a state rather than dying), the workspace directory exists and contains
no files at the moment the first capture begins, and the full run is
exactly the driver loop started from that reset state — the reset
happens before any invocation is processed. -/
theorem workspace_clean_before_first_capture
    (tc : String → List (List Char)) (trc : String → Int) (fs fs0 : FS)
    (h : reset_workspace fs = some fs0) :
    fs0.tempExists = true ∧ fs0.files = [] ∧
    fullRun tc trc fs = driverLoop tc trc arglist fs0 := by
  obtain ⟨te, fl⟩ := fs
  cases te
  · simp [reset_workspace] at h
  · simp only [reset_workspace, if_true] at h
    rw [Option.some_inj] at h
    subst h
    exact ⟨rfl, rfl, by simp [fullRun, reset_workspace]⟩

/-- Witness for C9 from a concrete pre-existing, non-empty workspace. -/
theorem workspace_clean_before_first_capture_witness :
    FS.tempExists ⟨true, []⟩ = true ∧
    FS.files (⟨true, []⟩ : FS) = [] ∧
    fullRun (fun _ : String => [['z', '\n']]) (fun _ : String => 0)
        ⟨true, [(filePath "run", ['x'])]⟩ =
      driverLoop (fun _ : String => [['z', '\n']]) (fun _ : String => 0)
        arglist ⟨true, []⟩ :=
  workspace_clean_before_first_capture _ _ ⟨true, [(filePath "run", ['x'])]⟩
    ⟨true, []⟩ rfl

/-- C10: if an exception interrupts the read loop after at least one
line of output has been accumulated, the bare `except` handler swallows
it and the function still returns the partial accumulated output with
its last character removed — a value indistinguishable from a fully
successful capture whose entire output was that partial stream. -/
theorem interrupted_capture_returns_partial_output (arguments : String)
    (chunksRead : List (List Char)) (rc1 rc2 : Int) (s : List Char)
    (hacc : accumOutput chunksRead none = some s) :
    (run_sc_cmd_interrupted arguments chunksRead rc1).2 = some s.dropLast ∧
    (run_sc_cmd_interrupted arguments chunksRead rc1).2 =
      run_sc_cmd chunksRead rc2 := by
  constructor
  · simp [run_sc_cmd_interrupted, hacc]
  · rfl

/-- Witness for C10: an interruption after the single line `p` plus
newline was read returns `p`, as a successful capture would. -/
theorem interrupted_capture_returns_partial_output_witness :
    (run_sc_cmd_interrupted "--help" [['p', '\n']] 0).2 = some ['p'] ∧
    (run_sc_cmd_interrupted "--help" [['p', '\n']] 0).2 =
      run_sc_cmd [['p', '\n']] 3 :=
  ⟨(interrupted_capture_returns_partial_output "--help" [['p', '\n']] 0 3
      ['p', '\n'] rfl).1,
   (interrupted_capture_returns_partial_output "--help" [['p', '\n']] 0 3
      ['p', '\n'] rfl).2⟩

end ScoreCompose
